import Mathlib

/-
Verification development for the Image-Denoise-Sharpen-Batch-Tool repository.

The embedding translates `src/filters.py`, `src/processor.py` and
`src/utils.py` into Lean.  External OpenCV primitives (Gaussian blur,
median blur, non-local means, Canny, resize, imread, imwrite, ...) are not
reimplemented by the repository, so they are modelled as fields of a `CV2`
record of fallible functions; the two primitives whose *pixel-level*
semantics the claims depend on (`cv2.addWeighted` and `cv2.filter2D`) are
modelled concretely from their documented behaviour (saturating rounded
arithmetic; correlation with a centred anchor and reflected border).

Images are rectangular rasters: a shape (height, width, channels) together
with a total pixel function.  Grayscale numpy arrays are 2-dimensional;
the flag `threeDim` records whether the numpy array has three axes
(`len(image.shape) == 3`), which is the test the source branches on.
Pixel samples are rationals; uint8 data holds integer values in [0,255].
Python float arithmetic is modelled exactly over ℚ and `int()` conversion
as truncation toward zero.
-/

namespace ImgTool

/-- Python exceptions visible to the pipeline: `ValueError` raised by the
mode dispatchers, and any error raised by an OpenCV primitive. -/
inductive PyErr where
  | valueError (msg : String)
  | primitiveError (msg : String)
deriving DecidableEq, Repr

/-- A raster image: shape plus a total pixel function `pix row col channel`.
`threeDim` models `len(image.shape) == 3` (numpy color arrays have three
axes, grayscale arrays two). -/
@[ext]
structure Image where
  height : Nat
  width : Nat
  channels : Nat
  threeDim : Bool
  pix : Nat → Nat → Nat → ℚ

/-- The (height, width, channels) shape triple of an image. -/
def Image.shape (img : Image) : Nat × Nat × Nat :=
  (img.height, img.width, img.channels)

/-- A well-formed image of the pipeline's data model: either a 3-channel
color image stored with three axes, or a single-channel grayscale image
stored with two axes. -/
def Image.WellFormed (img : Image) : Prop :=
  (img.threeDim = true ∧ img.channels = 3) ∨ (img.threeDim = false ∧ img.channels = 1)

/-- The per-mode parameter dictionary.  The Python dict is untyped; each
field models one key with the type the consuming mode reads it at.  The
key `kernel_size` is read as a pair by `gaussian`/`mean` and as a scalar
by `median` (the dicts are per-mode, so the two uses never collide);
`kernel_size_scalar` models the scalar reading.  A `none` field is an
absent key, so `Option.getD` models `dict.get(key, default)`. -/
structure Params where
  kernel_size : Option (Nat × Nat) := none
  kernel_size_scalar : Option Nat := none
  sigma : Option ℚ := none
  d : Option Nat := none
  sigma_color : Option ℚ := none
  sigma_space : Option ℚ := none
  h : Option ℚ := none
  template_window_size : Option Nat := none
  search_window_size : Option Nat := none
  strength : Option ℚ := none
  threshold : Option ℤ := none
  kernel : Option (List (List ℚ)) := none

/-- The external OpenCV primitives consumed by the repository, as abstract
fallible functions.  Argument lists mirror the call sites in the source. -/
structure CV2 where
  GaussianBlur : Image → Nat × Nat → ℚ → Except PyErr Image
  blur : Image → Nat × Nat → Except PyErr Image
  medianBlur : Image → Nat → Except PyErr Image
  bilateralFilter : Image → Nat → ℚ → ℚ → Except PyErr Image
  fastNlMeansDenoisingColored : Image → ℚ → ℚ → Nat → Nat → Except PyErr Image
  fastNlMeansDenoising : Image → ℚ → Nat → Nat → Except PyErr Image
  Laplacian : Image → Except PyErr Image
  Canny : Image → ℚ → ℚ → Except PyErr Image
  dilate : Image → Nat → Except PyErr Image
  cvtColorBGR2GRAY : Image → Except PyErr Image
  cvtColorGRAY2BGR : Image → Except PyErr Image
  resize : Image → Nat → Nat → Except PyErr Image
  imread : String → Except PyErr (Option Image)
  imwrite : String → Image → List ℤ → Except PyErr Bool

/-- Python `int()` on a float: truncation toward zero. -/
def pyTrunc (q : ℚ) : ℤ :=
  if 0 ≤ q then ⌊q⌋ else -⌊-q⌋

/-- OpenCV `cvRound`: round to nearest, ties to even. -/
def cvRound (q : ℚ) : ℤ :=
  let f := ⌊q⌋
  let r := q - (f : ℚ)
  if r < 1/2 then f
  else if 1/2 < r then f + 1
  else if f % 2 = 0 then f else f + 1

/-- OpenCV `saturate_cast` of an integer to the uint8 range. -/
def satCast (n : ℤ) : ℚ :=
  ((max 0 (min 255 n) : ℤ) : ℚ)

/-- `np.clip(x, 0, 255).astype(np.uint8)` on one sample: clip, then
truncate (nonnegative after the clip, so truncation is the floor). -/
def clipU8 (q : ℚ) : ℚ :=
  ((⌊max 0 (min 255 q)⌋ : ℤ) : ℚ)

/-- `.astype(np.uint8)` on one float sample without a prior clip:
truncation toward zero, reduced modulo 256 (C-style conversion). -/
def astypeU8 (q : ℚ) : ℚ :=
  (((pyTrunc q).emod 256 : ℤ) : ℚ)

/-- `np.abs(a - b)` where `a` and `b` are uint8 samples: the subtraction
wraps modulo 256 and stays nonnegative, so `np.abs` is the identity. -/
def u8AbsDiff (a b : ℚ) : ℤ :=
  ((pyTrunc a) - (pyTrunc b)).emod 256

/-- `cv2.addWeighted src1 alpha src2 beta gamma`: per-sample
`saturate_cast(cvRound(alpha*src1 + beta*src2 + gamma))`; the result has
the first operand's shape (OpenCV requires the operands to agree). -/
def addWeighted (src1 : Image) (alpha : ℚ) (src2 : Image) (beta : ℚ) (gamma : ℚ) : Image :=
  { src1 with
    pix := fun y x c =>
      satCast (cvRound (alpha * src1.pix y x c + beta * src2.pix y x c + gamma)) }

/-- BORDER_REFLECT_101 index mapping (single reflection, which is exact
whenever the kernel radius is smaller than the image dimension). -/
def reflect101 (n : Nat) (i : ℤ) : Nat :=
  if i < 0 then (-i).toNat
  else if (n : ℤ) ≤ i then (2 * ((n : ℤ) - 1) - i).toNat
  else i.toNat

/-- `cv2.filter2D(image, -1, kernel)`: correlation with the kernel
anchored at its centre, reflected border, and saturating rounded
conversion back to uint8. -/
def filter2D (img : Image) (kernel : List (List ℚ)) : Image :=
  let kh := kernel.length
  let kw := (kernel.headD []).length
  let ay := kh / 2
  let ax := kw / 2
  { img with
    pix := fun y x c =>
      satCast (cvRound ((List.range kh).foldl (fun acc i =>
        acc + (List.range kw).foldl (fun acc2 j =>
          acc2 + ((kernel.getD i []).getD j 0) *
            img.pix (reflect101 img.height ((y : ℤ) + (i : ℤ) - (ay : ℤ)))
                    (reflect101 img.width ((x : ℤ) + (j : ℤ) - (ax : ℤ))) c) 0) 0)) }

/-- DenoiseFilter.gaussian_denoise. -/
def gaussian_denoise (cv : CV2) (image : Image) (kernel_size : Nat × Nat) (sigma : ℚ) :
    Except PyErr Image :=
  cv.GaussianBlur image kernel_size sigma

/-- DenoiseFilter.mean_denoise. -/
def mean_denoise (cv : CV2) (image : Image) (kernel_size : Nat × Nat) : Except PyErr Image :=
  cv.blur image kernel_size

/-- DenoiseFilter.median_denoise. -/
def median_denoise (cv : CV2) (image : Image) (kernel_size : Nat) : Except PyErr Image :=
  cv.medianBlur image kernel_size

/-- DenoiseFilter.bilateral_denoise. -/
def bilateral_denoise (cv : CV2) (image : Image) (d : Nat) (sigma_color sigma_space : ℚ) :
    Except PyErr Image :=
  cv.bilateralFilter image d sigma_color sigma_space

/-- DenoiseFilter.nlmeans_denoise: branch on `len(image.shape) == 3`
between the colored and the grayscale primitive. -/
def nlmeans_denoise (cv : CV2) (image : Image) (h : ℚ)
    (template_window_size search_window_size : Nat) : Except PyErr Image :=
  if image.threeDim then
    cv.fastNlMeansDenoisingColored image h h template_window_size search_window_size
  else
    cv.fastNlMeansDenoising image h template_window_size search_window_size

/-- SharpenFilter.laplacian_sharpen: float Laplacian, subtract
`strength * laplacian`, clip to [0,255], convert back to uint8. -/
def laplacian_sharpen (cv : CV2) (image : Image) (strength : ℚ) : Except PyErr Image :=
  match cv.Laplacian image with
  | .error e => .error e
  | .ok lap =>
      .ok { image with
            pix := fun y x c =>
              clipU8 (image.pix y x c - strength * lap.pix y x c) }

/-- SharpenFilter.unsharp_mask: Gaussian blur, weighted combination
`image*(1+strength) + blurred*(-strength)`, and if `threshold > 0` a
low-contrast mask computed by `np.abs(image - blurred) < threshold`
on the uint8 arrays (so the subtraction wraps modulo 256). -/
def unsharp_mask (cv : CV2) (image : Image) (sigma strength : ℚ) (threshold : ℤ) :
    Except PyErr Image :=
  match cv.GaussianBlur image (0, 0) sigma with
  | .error e => .error e
  | .ok blurred =>
      let sharpened := addWeighted image (1 + strength) blurred (-strength) 0
      if threshold > 0 then
        .ok { sharpened with
              pix := fun y x c =>
                if u8AbsDiff (image.pix y x c) (blurred.pix y x c) < threshold then
                  image.pix y x c
                else sharpened.pix y x c }
      else
        .ok sharpened

/-- The default sharpen kernel of SharpenFilter.custom_kernel_sharpen. -/
def defaultSharpenKernel : List (List ℚ) :=
  [[0, -1, 0], [-1, 5, -1], [0, -1, 0]]

/-- SharpenFilter.custom_kernel_sharpen: use the supplied kernel, or the
fixed default when none is given, and convolve with `cv2.filter2D`. -/
def custom_kernel_sharpen (image : Image) (kernel : Option (List (List ℚ))) : Image :=
  filter2D image (kernel.getD defaultSharpenKernel)

/-- SharpenFilter.adaptive_sharpen: Canny edges on a grayscale derivative,
dilate, full unsharp mask, then blend sharpened and original through the
edge mask normalised to [0,1]. -/
def adaptive_sharpen (cv : CV2) (image : Image) (strength : ℚ) : Except PyErr Image :=
  match (if image.threeDim then cv.cvtColorBGR2GRAY image else .ok image) with
  | .error e => .error e
  | .ok gray =>
  match cv.Canny gray 50 150 with
  | .error e => .error e
  | .ok edges =>
  match cv.dilate edges 1 with
  | .error e => .error e
  | .ok edges2 =>
  match unsharp_mask cv image 1 strength 0 with
  | .error e => .error e
  | .ok sharpened =>
  match (if image.threeDim then cv.cvtColorGRAY2BGR edges2 else .ok edges2) with
  | .error e => .error e
  | .ok edge_mask =>
      .ok { sharpened with
            pix := fun y x c =>
              astypeU8 (sharpened.pix y x c * (edge_mask.pix y x c / 255) +
                image.pix y x c * (1 - edge_mask.pix y x c / 255)) }

/-- The closed set of denoise mode names. -/
def denoiseModes : List String :=
  ["gaussian", "mean", "median", "bilateral", "nlmeans"]

/-- The closed set of sharpen mode names. -/
def sharpenModes : List String :=
  ["laplacian", "unsharp_mask", "custom", "adaptive"]

/-- filters.apply_denoise: dispatch on the mode string with per-key
defaulting; an unrecognised mode raises `ValueError`. -/
def apply_denoise (cv : CV2) (image : Image) (mode : String) (params : Params) :
    Except PyErr Image :=
  if mode = "gaussian" then
    gaussian_denoise cv image (params.kernel_size.getD (5, 5)) (params.sigma.getD 1)
  else if mode = "mean" then
    mean_denoise cv image (params.kernel_size.getD (5, 5))
  else if mode = "median" then
    median_denoise cv image (params.kernel_size_scalar.getD 5)
  else if mode = "bilateral" then
    bilateral_denoise cv image (params.d.getD 9) (params.sigma_color.getD 75)
      (params.sigma_space.getD 75)
  else if mode = "nlmeans" then
    nlmeans_denoise cv image (params.h.getD 10) (params.template_window_size.getD 7)
      (params.search_window_size.getD 21)
  else
    .error (.valueError ("不支持的降噪模式: " ++ mode))

/-- filters.apply_sharpen: dispatch on the mode string with per-key
defaulting; an unrecognised mode raises `ValueError`. -/
def apply_sharpen (cv : CV2) (image : Image) (mode : String) (params : Params) :
    Except PyErr Image :=
  if mode = "laplacian" then
    laplacian_sharpen cv image (params.strength.getD (1/2))
  else if mode = "unsharp_mask" then
    unsharp_mask cv image (params.sigma.getD 1) (params.strength.getD (3/2))
      (params.threshold.getD 0)
  else if mode = "custom" then
    pure (custom_kernel_sharpen image params.kernel)
  else if mode = "adaptive" then
    adaptive_sharpen cv image (params.strength.getD 1)
  else
    .error (.valueError ("不支持的锐化模式: " ++ mode))

/-- The `denoise` section of the configuration: the selected mode (key
`mode`, default `bilateral`) and the per-mode parameter dictionaries
(`self.denoise_config.get(mode, empty)` is `paramsFor mode`). -/
structure DenoiseConfig where
  mode : String := "bilateral"
  paramsFor : String → Params := fun _ => {}

/-- The `sharpen` section of the configuration: enabled flag (default
true), selected mode (default `unsharp_mask`), per-mode parameters. -/
structure SharpenConfig where
  enabled : Bool := true
  mode : String := "unsharp_mask"
  paramsFor : String → Params := fun _ => {}

/-- The `output` section of the configuration; `prefix_` models the key
`prefix` (renamed because `prefix` is reserved in Lean). -/
structure OutputConfig where
  format : String := "png"
  quality : ℤ := 95
  prefix_ : String := "processed_"
  keep_original_name : Bool := true

/-- The `processing` section of the configuration. -/
structure ProcessingConfig where
  resize : Bool := false
  max_width : Nat := 1920
  max_height : Nat := 1080
  preserve_aspect_ratio : Bool := true

/-- The full configuration held by an ImageProcessor; each field default
is the corresponding `.get(key, default)` fallback in the source. -/
structure Config where
  denoise : DenoiseConfig := {}
  sharpen : SharpenConfig := {}
  output : OutputConfig := {}
  processing : ProcessingConfig := {}

/-- The aspect-preserving scale factor of ImageProcessor._resize_image:
`min(max_width / w, max_height / h)` in exact arithmetic. -/
def resizeScale (pc : ProcessingConfig) (img : Image) : ℚ :=
  min ((pc.max_width : ℚ) / (img.width : ℚ)) ((pc.max_height : ℚ) / (img.height : ℚ))

/-- ImageProcessor._resize_image: pass through when both dimensions are
within the maxima; otherwise scale by the single factor (aspect
preserved, `int()` truncating each new dimension) or directly to the
maxima; the actual resampling is the external `cv2.resize`. -/
def _resize_image (pc : ProcessingConfig) (cv : CV2) (image : Image) : Except PyErr Image :=
  if image.width ≤ pc.max_width ∧ image.height ≤ pc.max_height then
    .ok image
  else
    let nwh : Nat × Nat :=
      if pc.preserve_aspect_ratio then
        ((pyTrunc ((image.width : ℚ) * resizeScale pc image)).toNat,
         (pyTrunc ((image.height : ℚ) * resizeScale pc image)).toNat)
      else
        (pc.max_width, pc.max_height)
    cv.resize image nwh.1 nwh.2

/-- ImageProcessor._apply_denoise: select mode and parameters from the
configuration, call the dispatcher, and on any error fall back to the
unmodified input image (failure isolation). -/
def _apply_denoise (cfg : Config) (cv : CV2) (image : Image) : Image :=
  match apply_denoise cv image cfg.denoise.mode (cfg.denoise.paramsFor cfg.denoise.mode) with
  | .ok denoised => denoised
  | .error _ => image

/-- ImageProcessor._apply_sharpen: same failure-isolation policy as the
denoise stage. -/
def _apply_sharpen (cfg : Config) (cv : CV2) (image : Image) : Image :=
  match apply_sharpen cv image cfg.sharpen.mode (cfg.sharpen.paramsFor cfg.sharpen.mode) with
  | .ok sharpened => sharpened
  | .error _ => image

/-- OpenCV imwrite flag constants used by _save_image. -/
def IMWRITE_JPEG_QUALITY : ℤ := 1

/-- OpenCV imwrite flag constant for PNG compression. -/
def IMWRITE_PNG_COMPRESSION : ℤ := 16

/-- OpenCV imwrite flag constant for WEBP quality. -/
def IMWRITE_WEBP_QUALITY : ℤ := 64

/-- The PNG compression level computed by _save_image:
`max(0, min(9, int((100 - quality) / 10)))` with Python float division
and `int()` truncation. -/
def pngCompression (quality : ℤ) : ℤ :=
  max 0 (min 9 (pyTrunc (((100 - quality : ℤ) : ℚ) / 10)))

/-- Python str.lower() on the ASCII format names used by the
configuration: map the letters A..Z to a..z. -/
def pyLower (s : String) : String :=
  String.mk (s.toList.map (fun ch =>
    if 'A' ≤ ch ∧ ch ≤ 'Z' then Char.ofNat (ch.toNat + 32) else ch))

/-- The format-specific imwrite parameter list built by _save_image
(after lowercasing the configured format). -/
def encodeParams (output_format : String) (quality : ℤ) : List ℤ :=
  let fmt := pyLower output_format
  if fmt = "jpg" ∨ fmt = "jpeg" then [IMWRITE_JPEG_QUALITY, quality]
  else if fmt = "png" then [IMWRITE_PNG_COMPRESSION, pngCompression quality]
  else if fmt = "webp" then [IMWRITE_WEBP_QUALITY, quality]
  else []

/-- ImageProcessor._save_image: build the parameter list, call
`cv2.imwrite`, and turn any raised error into a `False` result. -/
def _save_image (cfg : Config) (cv : CV2) (image : Image) (output_path : String) : Bool :=
  match cv.imwrite output_path image (encodeParams cfg.output.format cfg.output.quality) with
  | .ok success => success
  | .error _ => false

/-- os.path.basename on a POSIX path: the part after the last slash. -/
def basename (p : String) : String :=
  String.mk (p.toList.foldl (fun acc ch => if ch = '/' then [] else acc ++ [ch]) [])

/-- The root part of os.path.splitext: drop the extension at the last
dot, unless every character before that dot is itself a dot (CPython's
leading-dot rule, so a bare dotfile name keeps its dot). -/
def splitextRoot (b : String) : String :=
  let cs := b.toList
  match (cs.enum.filter (fun p => p.2 = '.')).getLast? with
  | none => b
  | some (i, _) =>
      if (cs.take i).all (fun ch => ch = '.') then b
      else String.mk (cs.take i)

/-- os.path.join of two POSIX path components: an absolute second
component replaces the first; otherwise insert a slash unless the first
component is empty or already ends with one. -/
def joinPath (a b : String) : String :=
  if b.toList.head? = some '/' then b
  else if a.toList = [] then b
  else if a.toList.getLast? = some '/' then a ++ b
  else a ++ "/" ++ b

/-- utils.generate_output_filename: both branches of the
`keep_original_name` test build the same name
`prefix + root-of-basename + dot + format` under the output directory. -/
def generate_output_filename (input_path output_dir prefix_ output_format : String)
    (keep_original_name : Bool) : String :=
  let basename_ := basename input_path
  let name_without_ext := splitextRoot basename_
  let output_name :=
    if keep_original_name then prefix_ ++ name_without_ext ++ "." ++ output_format
    else prefix_ ++ splitextRoot basename_ ++ "." ++ output_format
  joinPath output_dir output_name

/-- The denoise-then-optional-sharpen section of process_image, applied
to the post-resize image (factored out of the orchestrator body). -/
def pipelineAfterResize (cfg : Config) (cv : CV2) (image : Image) : Image :=
  let denoised := _apply_denoise cfg cv image
  if cfg.sharpen.enabled then _apply_sharpen cfg cv denoised else denoised

/-- The body of ImageProcessor.process_image inside its outer
`try` block: decode, optional resize, denoise, optional sharpen, name,
save; any error escaping a step propagates to the outer handler. -/
def process_image_body (cv : CV2) (cfg : Config) (image_path output_dir : String) :
    Except PyErr (Option String) :=
  match cv.imread image_path with
  | .error e => .error e
  | .ok none => .ok none
  | .ok (some image) =>
  match (if cfg.processing.resize then _resize_image cfg.processing cv image
         else .ok image) with
  | .error e => .error e
  | .ok resized =>
      let processed := pipelineAfterResize cfg cv resized
      let output_path := generate_output_filename image_path output_dir
        cfg.output.prefix_ cfg.output.format cfg.output.keep_original_name
      let success := _save_image cfg cv processed output_path
      .ok (if success then some output_path else none)

/-- ImageProcessor.process_image: the outer `except Exception` handler
maps every escaped error to the `None` result. -/
def process_image (cv : CV2) (cfg : Config) (image_path output_dir : String) :
    Option String :=
  match process_image_body cv cfg image_path output_dir with
  | .ok r => r
  | .error _ => none

/-- A 2x2 three-channel test image with constant sample value 7. -/
def img0 : Image :=
  { height := 2, width := 2, channels := 3, threeDim := true, pix := fun _ _ _ => 7 }

/-- A 1x3 grayscale test row with samples 100, 104, 104. -/
def imgRow : Image :=
  { height := 1, width := 3, channels := 1, threeDim := false,
    pix := fun _ x _ => if x = 0 then 100 else 104 }

/-- A large 3000x2000 color test image (width 3000, height 2000). -/
def imgLarge : Image :=
  { height := 2000, width := 3000, channels := 3, threeDim := true, pix := fun _ _ _ => 7 }

/-- A stub primitive library whose filters return their input unchanged,
whose resize returns an image of exactly the requested size, whose
imread decodes every path to `img0`, and whose imwrite succeeds. -/
def cvId : CV2 :=
  { GaussianBlur := fun img _ _ => .ok img
    blur := fun img _ => .ok img
    medianBlur := fun img _ => .ok img
    bilateralFilter := fun img _ _ _ => .ok img
    fastNlMeansDenoisingColored := fun img _ _ _ _ => .ok img
    fastNlMeansDenoising := fun img _ _ _ => .ok img
    Laplacian := fun img => .ok img
    Canny := fun img _ _ => .ok img
    dilate := fun img _ => .ok img
    cvtColorBGR2GRAY := fun img => .ok img
    cvtColorGRAY2BGR := fun img => .ok img
    resize := fun img w h => .ok { img with width := w, height := h }
    imread := fun _ => .ok (some img0)
    imwrite := fun _ _ _ => .ok true }

/-- A stub library whose every filtering primitive raises, for the
failure-injection witnesses; decode and write still succeed. -/
def cvRaise : CV2 :=
  { GaussianBlur := fun _ _ _ => .error (.primitiveError "GaussianBlur failed")
    blur := fun _ _ => .error (.primitiveError "blur failed")
    medianBlur := fun _ _ => .error (.primitiveError "medianBlur failed")
    bilateralFilter := fun _ _ _ _ => .error (.primitiveError "bilateralFilter failed")
    fastNlMeansDenoisingColored := fun _ _ _ _ _ => .error (.primitiveError "nlmc failed")
    fastNlMeansDenoising := fun _ _ _ _ => .error (.primitiveError "nlm failed")
    Laplacian := fun _ => .error (.primitiveError "Laplacian failed")
    Canny := fun _ _ _ => .error (.primitiveError "Canny failed")
    dilate := fun _ _ => .error (.primitiveError "dilate failed")
    cvtColorBGR2GRAY := fun _ => .error (.primitiveError "cvtColor failed")
    cvtColorGRAY2BGR := fun _ => .error (.primitiveError "cvtColor failed")
    resize := fun _ _ _ => .error (.primitiveError "resize failed")
    imread := fun _ => .ok (some img0)
    imwrite := fun _ _ _ => .ok true }

/-- A stub library whose imread itself raises, for the exception
absorption witness. -/
def cvReadErr : CV2 :=
  { cvId with imread := fun _ => .error (.primitiveError "imread failed") }

/-- A stub library whose Gaussian blur brightens the first pixel of
`imgRow` to 102 and returns 103 elsewhere — plausible blur outputs for
that row, used to exercise the unsharp-mask threshold path. -/
def cvBlur102 : CV2 :=
  { cvId with
    GaussianBlur := fun _ _ _ =>
      .ok { height := 1, width := 3, channels := 1, threeDim := false,
            pix := fun _ x _ => if x = 0 then 102 else 103 } }

/-- A configuration whose denoise mode is not in the supported set and
whose sharpen stage is disabled. -/
def cfgBadMode : Config :=
  { denoise := { mode := "wavelet" }, sharpen := { enabled := false } }

/-- The image cvId's resize stub produces for the 3000x2000 input under
the default 1920x1080 maxima with aspect preservation. -/
def imgResized : Image :=
  { imgLarge with width := 1620, height := 1080 }

/-- The documented shape contracts of the external denoise-related
primitives: each returns an image of its input's shape. -/
def ShapeContracts (cv : CV2) : Prop :=
  (∀ img ks s out, cv.GaussianBlur img ks s = .ok out → out.shape = img.shape) ∧
  (∀ img ks out, cv.blur img ks = .ok out → out.shape = img.shape) ∧
  (∀ img k out, cv.medianBlur img k = .ok out → out.shape = img.shape) ∧
  (∀ img d sc ss out, cv.bilateralFilter img d sc ss = .ok out → out.shape = img.shape) ∧
  (∀ img h hc t s out, cv.fastNlMeansDenoisingColored img h hc t s = .ok out →
    out.shape = img.shape) ∧
  (∀ img h t s out, cv.fastNlMeansDenoising img h t s = .ok out → out.shape = img.shape)

/-- Rounding a value that is already an integer returns it. -/
theorem cvRound_intCast (n : ℤ) : cvRound ((n : ℤ) : ℚ) = n := by
  simp [cvRound]

/-- The identity-stub library satisfies the denoise shape contracts. -/
theorem cvId_shape_contracts : ShapeContracts cvId := by
  refine ⟨?_, ?_, ?_, ?_, ?_, ?_⟩ <;>
    (intro img
     intros
     rename_i hok
     simp only [cvId] at hok
     cases hok
     rfl)

/-- Unsharp masking returns an image of its input's shape whenever it
returns at all. -/
theorem unsharp_mask_shape (cv : CV2) (image : Image) (sigma strength : ℚ) (threshold : ℤ)
    (out : Image) (hok : unsharp_mask cv image sigma strength threshold = .ok out) :
    out.shape = image.shape := by
  unfold unsharp_mask at hok
  split at hok
  · simp at hok
  · split at hok
    · cases hok; rfl
    · cases hok; rfl

/-- Adaptive sharpening returns an image of its input's shape whenever
it returns at all. -/
theorem adaptive_sharpen_shape (cv : CV2) (image : Image) (strength : ℚ) (out : Image)
    (hok : adaptive_sharpen cv image strength = .ok out) : out.shape = image.shape := by
  unfold adaptive_sharpen at hok
  split at hok
  · simp at hok
  · split at hok
    · simp at hok
    · split at hok
      · simp at hok
      · split at hok
        · simp at hok
        · split at hok
          · simp at hok
          · cases hok
            rename_i s hs x em hm
            exact unsharp_mask_shape cv image 1 strength 0 s hs

/-- Clamping to [0,9] erases the difference between Python int()
truncation and the floor: they agree on nonnegative values and both land
at or below zero on negative ones. -/
theorem clamp09_pyTrunc_eq_floor (v : ℚ) :
    max 0 (min 9 (pyTrunc v)) = max 0 (min 9 ⌊v⌋) := by
  unfold pyTrunc
  by_cases h : 0 ≤ v
  · rw [if_pos h]
  · rw [if_neg h]
    push_neg at h
    have h1 : -⌊-v⌋ ≤ 0 := by
      have : (0 : ℤ) ≤ ⌊-v⌋ := Int.floor_nonneg.mpr (by linarith)
      omega
    have h2 : ⌊v⌋ ≤ 0 := Int.floor_nonpos h.le
    omega

/-- C10: generate_output_filename returns the same output path whatever
the value of the keep_original_name flag — both branches compute
outputDir joined with prefix ++ basename-without-extension ++ dot ++
format — so the flag has no observable effect. -/
theorem c10_keep_original_name_no_effect
    (input_path output_dir prefix_ output_format : String) (b1 b2 : Bool) :
    generate_output_filename input_path output_dir prefix_ output_format b1
      = generate_output_filename input_path output_dir prefix_ output_format b2
    ∧ generate_output_filename input_path output_dir prefix_ output_format b1
      = joinPath output_dir
          (prefix_ ++ splitextRoot (basename input_path) ++ "." ++ output_format) := by
  cases b1 <;> cases b2 <;> exact ⟨rfl, rfl⟩

/-- C6: when the configured format lowercases to png, _save_image passes
the compression level clamp(0,9,floor((100-quality)/10)) for every
quality value — Python int() truncation coincides with the floor policy
here because the clamp erases their disagreement on negative values. -/
theorem c6_png_quality_floor (fmt : String) (q : ℤ) (hfmt : pyLower fmt = "png") :
    encodeParams fmt q
      = [IMWRITE_PNG_COMPRESSION, max 0 (min 9 ⌊(((100 - q : ℤ) : ℚ)) / 10⌋)] := by
  unfold encodeParams
  rw [hfmt]
  have hj : ¬("png" = "jpg" ∨ "png" = "jpeg") := by decide
  rw [if_neg hj, if_pos rfl]
  rw [pngCompression, clamp09_pyTrunc_eq_floor]

/-- C6 witness: at quality 95 the PNG compression parameter is 0. -/
theorem c6_png_quality_floor_witness :
    pyLower "png" = "png" ∧ encodeParams "png" 95 = [IMWRITE_PNG_COMPRESSION, 0] := by
  refine ⟨by decide, ?_⟩
  rw [c6_png_quality_floor "png" 95 (by decide)]
  norm_num

/-- C1 counterexample: with the unsupported denoise mode "wavelet" the
dispatcher raises ValueError, but ImageProcessor._apply_denoise catches
it and substitutes the unmodified input image, and process_image then
completes with a written output — the configuration error is recovered
by a fallback image and is not fatal to the image's pipeline, contrary
to the claim. -/
theorem c1_unknown_mode_counterexample :
    apply_denoise cvId img0 "wavelet" {} = .error (.valueError "不支持的降噪模式: wavelet")
    ∧ _apply_denoise cfgBadMode cvId img0 = img0
    ∧ process_image cvId cfgBadMode "photos/a.jpg" "out" = some "out/processed_a.png" := by
  exact ⟨rfl, rfl, by decide⟩

/-- C1 (amended): an unknown mode name makes apply_denoise or
apply_sharpen raise ValueError — signaled, never silently ignored — but
the pipeline's stage wrappers catch the error and fall back to the
stage's unmodified input image, so at the pipeline level the
configuration error is recovered rather than fatal or propagated. -/
theorem c1_unknown_mode_signaled_then_recovered
    (cv : CV2) (img : Image) (mode : String) (ps : Params) (cfg : Config) :
    (mode ∉ denoiseModes →
      apply_denoise cv img mode ps = .error (.valueError ("不支持的降噪模式: " ++ mode)))
    ∧ (mode ∉ sharpenModes →
      apply_sharpen cv img mode ps = .error (.valueError ("不支持的锐化模式: " ++ mode)))
    ∧ (cfg.denoise.mode ∉ denoiseModes → _apply_denoise cfg cv img = img)
    ∧ (cfg.sharpen.mode ∉ sharpenModes → _apply_sharpen cfg cv img = img) := by
  refine ⟨?_, ?_, ?_, ?_⟩
  · intro hm
    simp only [denoiseModes, List.mem_cons, List.not_mem_nil, or_false, not_or] at hm
    obtain ⟨h1, h2, h3, h4, h5⟩ := hm
    simp [apply_denoise, h1, h2, h3, h4, h5]
  · intro hm
    simp only [sharpenModes, List.mem_cons, List.not_mem_nil, or_false, not_or] at hm
    obtain ⟨h1, h2, h3, h4⟩ := hm
    simp [apply_sharpen, h1, h2, h3, h4]
  · intro hm
    simp only [denoiseModes, List.mem_cons, List.not_mem_nil, or_false, not_or] at hm
    obtain ⟨h1, h2, h3, h4, h5⟩ := hm
    simp [_apply_denoise, apply_denoise, h1, h2, h3, h4, h5]
  · intro hm
    simp only [sharpenModes, List.mem_cons, List.not_mem_nil, or_false, not_or] at hm
    obtain ⟨h1, h2, h3, h4⟩ := hm
    simp [_apply_sharpen, apply_sharpen, h1, h2, h3, h4]

/-- C1 witness: the amended statement instantiated at the concrete
unsupported mode "wavelet". -/
theorem c1_unknown_mode_signaled_then_recovered_witness :
    "wavelet" ∉ denoiseModes
    ∧ apply_denoise cvId img0 "wavelet" {}
        = .error (.valueError ("不支持的降噪模式: " ++ "wavelet"))
    ∧ _apply_denoise cfgBadMode cvId img0 = img0 := by
  refine ⟨by decide, ?_, ?_⟩
  · exact (c1_unknown_mode_signaled_then_recovered cvId img0 "wavelet" {} cfgBadMode).1
      (by decide)
  · exact (c1_unknown_mode_signaled_then_recovered cvId img0 "wavelet" {} cfgBadMode).2.2.1
      (by decide)

/-- C2: if the denoise dispatcher raises, the stage returns its input
image unchanged and the pipeline continues into the sharpen stage with
that image; symmetrically a failing sharpen stage returns its input. A
stage failure is never fatal to the image. -/
theorem c2_stage_failure_isolated (cfg : Config) (cv : CV2) (img : Image) :
    ((∃ e, apply_denoise cv img cfg.denoise.mode (cfg.denoise.paramsFor cfg.denoise.mode)
        = .error e) →
      _apply_denoise cfg cv img = img
      ∧ (cfg.sharpen.enabled = true →
          pipelineAfterResize cfg cv img = _apply_sharpen cfg cv img))
    ∧ ((∃ e, apply_sharpen cv img cfg.sharpen.mode (cfg.sharpen.paramsFor cfg.sharpen.mode)
        = .error e) →
      _apply_sharpen cfg cv img = img) := by
  constructor
  · rintro ⟨e, he⟩
    have hd : _apply_denoise cfg cv img = img := by simp [_apply_denoise, he]
    exact ⟨hd, fun hs => by simp [pipelineAfterResize, hd, hs]⟩
  · rintro ⟨e, he⟩
    simp [_apply_sharpen, he]

/-- C2 witness: with a primitive library whose bilateral filter raises
and the default configuration, the denoise stage passes its input
through and the pipeline proceeds to the sharpen stage. -/
theorem c2_stage_failure_isolated_witness :
    (∃ e, apply_denoise cvRaise img0 ({} : Config).denoise.mode
        (({} : Config).denoise.paramsFor ({} : Config).denoise.mode) = .error e)
    ∧ _apply_denoise {} cvRaise img0 = img0
    ∧ pipelineAfterResize {} cvRaise img0 = _apply_sharpen {} cvRaise img0 := by
  have h : ∃ e, apply_denoise cvRaise img0 ({} : Config).denoise.mode
      (({} : Config).denoise.paramsFor ({} : Config).denoise.mode) = .error e :=
    ⟨.primitiveError "bilateralFilter failed", rfl⟩
  exact ⟨h, ((c2_stage_failure_isolated {} cvRaise img0).1 h).1,
    ((c2_stage_failure_isolated {} cvRaise img0).1 h).2 rfl⟩

/-- C3 evaluation at a failing input: imgRow is the grayscale row
[100,104,104] and cvBlur102's Gaussian blur returns 102 at the first
pixel (a plausible blur of that row).  The true contrast |100 - 102| = 2
is below the threshold 5, so the claim — and the function's own
docstring — require the output pixel to stay 100; but the uint8
subtraction inside np.abs(image - blurred) wraps 100 - 102 to 254, the
low-contrast mask misses the pixel, and the sharpened value 97 is
produced instead. -/
theorem c3_unsharp_threshold_wraparound :
    imgRow.pix 0 0 0 = 100
    ∧ |imgRow.pix 0 0 0 - 102| < 5
    ∧ u8AbsDiff (imgRow.pix 0 0 0) 102 = 254
    ∧ (unsharp_mask cvBlur102 imgRow 1 (3/2) 5).map (fun o => o.pix 0 0 0) = .ok 97 := by
  refine ⟨rfl, by norm_num [imgRow], by norm_num [imgRow, u8AbsDiff, pyTrunc], ?_⟩
  simp [unsharp_mask, cvBlur102, imgRow, addWeighted, u8AbsDiff, pyTrunc, satCast,
    cvRound, Except.map]
  norm_num

/-- C5: _resize_image passes a within-bounds image through unchanged; an
out-of-bounds image is resampled at dimensions obtained by truncating
width*scale and height*scale for the single factor
scale = min(max_width/width, max_height/height) when aspect
preservation is on, and at exactly the configured maxima otherwise
(given the documented contract that cv2.resize returns an image of the
requested size). -/
theorem c5_resize_behavior (pc : ProcessingConfig) (cv : CV2) (img : Image)
    (hres : ∀ i a b o, cv.resize i a b = .ok o → o.width = a ∧ o.height = b) :
    (img.width ≤ pc.max_width ∧ img.height ≤ pc.max_height →
      _resize_image pc cv img = .ok img)
    ∧ (¬(img.width ≤ pc.max_width ∧ img.height ≤ pc.max_height) →
        pc.preserve_aspect_ratio = true →
        ∀ o, _resize_image pc cv img = .ok o →
          o.width = (pyTrunc ((img.width : ℚ) * resizeScale pc img)).toNat
          ∧ o.height = (pyTrunc ((img.height : ℚ) * resizeScale pc img)).toNat)
    ∧ (¬(img.width ≤ pc.max_width ∧ img.height ≤ pc.max_height) →
        pc.preserve_aspect_ratio = false →
        ∀ o, _resize_image pc cv img = .ok o →
          o.width = pc.max_width ∧ o.height = pc.max_height) := by
  refine ⟨?_, ?_, ?_⟩
  · intro hin
    simp [_resize_image, hin]
  · intro hout hp o hok
    unfold _resize_image at hok
    rw [if_neg hout] at hok
    simp only [hp, if_true] at hok
    exact hres _ _ _ _ hok
  · intro hout hp o hok
    unfold _resize_image at hok
    rw [if_neg hout] at hok
    simp only [hp, if_false, Bool.false_eq_true] at hok
    exact hres _ _ _ _ hok

/-- C5 witness: a 3000x2000 image under maxima 1920x1080 with aspect
preservation is handed to resize at 1620x1080 (single scale factor
min(1920/3000, 1080/2000) = 0.54 applied to both dimensions). -/
theorem c5_resize_behavior_witness :
    _resize_image { resize := true } cvId imgLarge = .ok imgResized
    ∧ imgResized.width = 1620 ∧ imgResized.height = 1080 := by
  have hres : ∀ i a b o, cvId.resize i a b = .ok o → o.width = a ∧ o.height = b := by
    intro i a b o h
    injection h with h
    rw [← h]
    exact ⟨rfl, rfl⟩
  have hout : ¬(imgLarge.width ≤ ({ resize := true } : ProcessingConfig).max_width
      ∧ imgLarge.height ≤ ({ resize := true } : ProcessingConfig).max_height) := by decide
  have hok : _resize_image { resize := true } cvId imgLarge = .ok imgResized := by
    simp [_resize_image, cvId, imgLarge, imgResized, resizeScale, pyTrunc]
    norm_num
    decide
  have hdims := (c5_resize_behavior { resize := true } cvId imgLarge hres).2.1 hout rfl
    imgResized hok
  refine ⟨hok, ?_, ?_⟩
  · rw [hdims.1]
    norm_num [imgLarge, resizeScale, pyTrunc]
    decide
  · rw [hdims.2]
    norm_num [imgLarge, resizeScale, pyTrunc]
    decide

/-- C8: nlmeans_denoise branches on the numpy axis count, which for the
well-formed images of the data model sends exactly the 3-channel images
to the colored primitive and the single-channel images to the grayscale
primitive; the branch is always taken. -/
theorem c8_nlmeans_dispatch (cv : CV2) (img : Image) (h : ℚ) (t s : Nat)
    (hwf : img.WellFormed) :
    (img.channels = 3 →
      nlmeans_denoise cv img h t s = cv.fastNlMeansDenoisingColored img h h t s)
    ∧ (img.channels ≠ 3 →
      nlmeans_denoise cv img h t s = cv.fastNlMeansDenoising img h t s) := by
  rcases hwf with ⟨h3, hc⟩ | ⟨h2, hc⟩
  · exact ⟨fun _ => by simp [nlmeans_denoise, h3], fun hne => absurd hc hne⟩
  · refine ⟨fun hch => ?_, fun _ => by simp [nlmeans_denoise, h2]⟩
    rw [hc] at hch
    exact absurd hch (by decide)

/-- C8 witness: the 3-channel test image takes the colored path. -/
theorem c8_nlmeans_dispatch_witness :
    img0.WellFormed ∧ img0.channels = 3
    ∧ nlmeans_denoise cvId img0 10 7 21 = cvId.fastNlMeansDenoisingColored img0 10 10 7 21 := by
  have hwf : img0.WellFormed := by
    left
    exact ⟨rfl, rfl⟩
  exact ⟨hwf, rfl, (c8_nlmeans_dispatch cvId img0 10 7 21 hwf).1 rfl⟩

/-- C9: process_image never propagates an error to its caller: a body
that raises is absorbed into the None result, and a Some result is
exactly the generated output path for an image whose save reported
success (bytes written). -/
theorem c9_process_image_absorbs (cv : CV2) (cfg : Config) (ip od : String) :
    (∀ e, process_image_body cv cfg ip od = .error e → process_image cv cfg ip od = none)
    ∧ (∀ p, process_image cv cfg ip od = some p →
        p = generate_output_filename ip od cfg.output.prefix_ cfg.output.format
              cfg.output.keep_original_name
        ∧ ∃ img, _save_image cfg cv img p = true) := by
  constructor
  · intro e he
    simp [process_image, he]
  · intro p hp
    unfold process_image at hp
    cases hb : process_image_body cv cfg ip od with
    | error e => rw [hb] at hp; simp at hp
    | ok r =>
        rw [hb] at hp
        simp only at hp
        subst hp
        unfold process_image_body at hb
        split at hb
        · exact absurd hb (by simp)
        · simp at hb
        · split at hb
          · exact absurd hb (by simp)
          · simp only [Except.ok.injEq] at hb
            split at hb
            · cases hb
              exact ⟨rfl, ⟨_, by assumption⟩⟩
            · simp at hb

/-- C9 witness: a raising decode is absorbed into the None result. -/
theorem c9_process_image_absorbs_witness :
    process_image_body cvReadErr {} "in/a.jpg" "out" = .error (.primitiveError "imread failed")
    ∧ process_image cvReadErr {} "in/a.jpg" "out" = none := by
  refine ⟨rfl, ?_⟩
  exact (c9_process_image_absorbs cvReadErr {} "in/a.jpg" "out").1
    (.primitiveError "imread failed") rfl

/-- Saturating and rounding an integer sample already inside [0,255]
returns it unchanged. -/
theorem satCast_cvRound_int (v : ℤ) (h0 : 0 ≤ v) (h255 : v ≤ 255) :
    satCast (cvRound ((v : ℤ) : ℚ)) = ((v : ℤ) : ℚ) := by
  rw [cvRound_intCast]
  unfold satCast
  have h : max 0 (min 255 v) = v := by omega
  rw [h]

/-- C4: for every supported denoise mode and every supported sharpen
mode, the output image's (height, width, channels) shape equals the
input's — in particular no filter changes the channel count — given the
documented same-shape contracts of the external denoise primitives. -/
theorem c4_filters_preserve_shape (cv : CV2) (hc : ShapeContracts cv)
    (img : Image) (mode : String) (ps : Params) (out : Image) :
    (mode ∈ denoiseModes → apply_denoise cv img mode ps = .ok out → out.shape = img.shape)
    ∧ (mode ∈ sharpenModes → apply_sharpen cv img mode ps = .ok out → out.shape = img.shape) := by
  obtain ⟨hgau, hblur, hmed, hbil, hnlc, hnlg⟩ := hc
  constructor
  · intro hmem hok
    simp only [denoiseModes, List.mem_cons, List.not_mem_nil, or_false] at hmem
    rcases hmem with h | h | h | h | h <;> subst h
    · exact hgau _ _ _ _ (by simpa [apply_denoise, gaussian_denoise] using hok)
    · exact hblur _ _ _ (by simpa [apply_denoise, mean_denoise] using hok)
    · exact hmed _ _ _ (by simpa [apply_denoise, median_denoise] using hok)
    · exact hbil _ _ _ _ _ (by simpa [apply_denoise, bilateral_denoise] using hok)
    · simp [apply_denoise] at hok
      cases ht : img.threeDim with
      | true =>
          rw [nlmeans_denoise, if_pos ht] at hok
          exact hnlc _ _ _ _ _ _ hok
      | false =>
          rw [nlmeans_denoise, if_neg (by simp [ht])] at hok
          exact hnlg _ _ _ _ _ hok
  · intro hmem hok
    simp only [sharpenModes, List.mem_cons, List.not_mem_nil, or_false] at hmem
    rcases hmem with h | h | h | h <;> subst h
    · simp [apply_sharpen] at hok
      unfold laplacian_sharpen at hok
      split at hok
      · simp at hok
      · cases hok
        rfl
    · simp [apply_sharpen] at hok
      exact unsharp_mask_shape _ _ _ _ _ _ hok
    · simp [apply_sharpen] at hok
      cases hok
      rfl
    · simp [apply_sharpen] at hok
      exact adaptive_sharpen_shape _ _ _ _ hok

/-- C4 witness: the identity stub satisfies the contracts and bilateral
denoising of the test image preserves its shape. -/
theorem c4_filters_preserve_shape_witness :
    ShapeContracts cvId ∧ "bilateral" ∈ denoiseModes
    ∧ apply_denoise cvId img0 "bilateral" {} = .ok img0
    ∧ img0.shape = img0.shape := by
  refine ⟨cvId_shape_contracts, by decide, rfl, ?_⟩
  exact (c4_filters_preserve_shape cvId cvId_shape_contracts img0 "bilateral" {} img0).1
    (by decide) rfl

/-- C7: custom sharpening with no kernel supplied uses the fixed default
kernel [[0,-1,0],[-1,5,-1],[0,-1,0]], and because the kernel weights sum
to one, a uniform flat-color image comes back entirely unchanged. -/
theorem c7_custom_default_kernel_unity (img : Image) (v : ℤ)
    (h0 : 0 ≤ v) (h255 : v ≤ 255) (hpix : img.pix = fun _ _ _ => ((v : ℤ) : ℚ)) :
    custom_kernel_sharpen img none = filter2D img defaultSharpenKernel
    ∧ custom_kernel_sharpen img none = img := by
  refine ⟨rfl, ?_⟩
  unfold custom_kernel_sharpen filter2D
  refine Image.ext rfl rfl rfl rfl ?_
  funext y x c
  rw [hpix]
  have h3 : List.range 3 = [0, 1, 2] := rfl
  simp only [Option.getD, defaultSharpenKernel]
  simp [h3]
  ring_nf
  exact satCast_cvRound_int v h0 h255

/-- C7 witness: the uniform 2x2 color image with value 7 is unchanged by
default custom sharpening. -/
theorem c7_custom_default_kernel_unity_witness :
    (0 : ℤ) ≤ 7 ∧ (7 : ℤ) ≤ 255 ∧ custom_kernel_sharpen img0 none = img0 := by
  refine ⟨by decide, by decide, ?_⟩
  refine (c7_custom_default_kernel_unity img0 7 (by decide) (by decide) ?_).2
  funext y x c
  norm_num [img0]

end ImgTool
